import Mathlib

set_option maxRecDepth 200000

/-!
Verification of the heuristic scoring engine of the WebsiteAnalyzer
repository (`analyzer_utils.py`).  The Python functions are embedded as
executable Lean definitions over an explicit document model: a fetched
page is represented by its title text, the presence of a viewport meta
element, its rendered text content, and the `src` attribute of each
`img` element.  Machine-level details that no scoring rule depends on
(HTML parsing itself, network transport, wall-clock measurement) stay
outside the model; load times are represented as rationals.
-/

namespace WebsiteAnalyzer

/-! ## String primitives

Python's `needle in hay`, `str.startswith`, `str.lower`, `str.strip`
are modelled over the character lists underlying Lean strings.  All
page content handled by the analyzer is ASCII, where `Char.toLower`
and the ASCII whitespace class coincide with Python's behaviour. -/

/-- `startsList p s` : the character list `p` is an initial segment of `s`
(Python `s.startswith(p)` at the list level). -/
def startsList : List Char → List Char → Bool
  | [], _ => true
  | _ :: _, [] => false
  | a :: as, b :: bs => a == b && startsList as bs

/-- `subList needle hay` : `needle` occurs contiguously inside `hay`
(Python `needle in hay` at the list level). -/
def subList (needle : List Char) : List Char → Bool
  | [] => needle.isEmpty
  | c :: rest => startsList needle (c :: rest) || subList needle rest

/-- Python `needle in hay` on strings. -/
def strContains (hay needle : String) : Bool :=
  subList needle.data hay.data

/-- Python `s.startswith(p)`. -/
def strStartsWith (s p : String) : Bool :=
  startsList p.data s.data

/-- ASCII whitespace, the characters Python's `str.strip()` removes from
ASCII text. -/
def isPySpace (c : Char) : Bool :=
  c == ' ' || c == '\t' || c == '\n' || c == '\r' || c == '\x0b' || c == '\x0c'

/-- `str.strip()` on the underlying character list. -/
def stripChars (l : List Char) : List Char :=
  ((l.dropWhile isPySpace).reverse.dropWhile isPySpace).reverse

/-- Python `s.strip()`. -/
def pyStrip (s : String) : String :=
  ⟨stripChars s.data⟩

/-- Python `s.lower()`: each character lower-cased. -/
def pyLower (s : String) : String :=
  ⟨s.data.map Char.toLower⟩

/-! ## Document model -/

/-- The information the analyzer reads out of a fetched page
(`BeautifulSoup` handle in the source):
* `title` — the text of the `<title>` element; `none` when the page has
  no title element or the element has no string content (both are
  `None` in Python and are treated identically by every consumer);
* `viewport` — whether a `meta` element with `name="viewport"` exists;
* `text` — `soup.get_text()`, the full rendered text content;
* `imgSrcs` — one entry per `img` element: the value of its `src`
  attribute, with `""` for a missing or empty attribute (Python's
  `img.get('src')` is falsy in exactly those cases). -/
structure Doc where
  title : Option String
  viewport : Bool
  text : String
  imgSrcs : List String
deriving Repr, DecidableEq

/-! ## Fetcher (`fetch_html`, lines 12-24) -/

/-- The URL actually requested by `fetch_html`: the source prepends
`"https://"` exactly when the input does not start (case-insensitively)
with `"http"`. -/
def fetch_html_url (url : String) : String :=
  if !(strStartsWith (pyLower url) "http") then "https://" ++ url else url

/-- Modelled from the spec: the Fetcher contract says the scheme is
normalized by prepending a secure-transport scheme "if none is
present".  A URL string is taken to contain a scheme when it contains
the `"://"` separator.  This definition follows the specification's
words and exists only to be compared with `fetch_html_url`, which is
what the source actually does. -/
def spec_has_scheme (url : String) : Bool :=
  strContains url "://"

/-! ## Predicate set (`check_*`, lines 27-109)

Each predicate returns Python's `(passed, reason)` pair. -/

def check_ssl (url : String) : Bool × String :=
  if strStartsWith (pyLower url) "https://" then (true, "")
  else (false, "No SSL (site not secure).")

def check_mobile_meta (d : Doc) : Bool × String :=
  if d.viewport then (true, "")
  else (false, "Missing mobile viewport meta tag (not mobile-friendly).")

/-- Decimal rendering used by the page-speed failure message.  The
source formats the float load time with `f"{load_time:.1f}"`; here the
rational load time is rendered with one digit after the point, rounding
half away from zero (the two renderings differ only at binary-float
midpoints, which no analyzed value exercises). -/
def fmtTenths (q : ℚ) : String :=
  let n : Int := (q * 10 + 1 / 2).floor
  toString (n / 10) ++ "." ++ toString (n % 10)

def check_page_speed (load_time : ℚ) : Bool × String :=
  if load_time ≤ 4 then (true, "")
  else (false, "Page load time " ++ fmtTenths load_time ++ "s (slower than 4.0s).")

def check_company_name_or_title (d : Doc) : Bool × String :=
  match d.title with
  | some title =>
    if title ≠ "" ∧ !strContains (pyLower title) "home" ∧ !strContains (pyLower title) "index"
        ∧ (pyStrip title).length > 5 then
      (true, "")
    else (false, "Generic or missing page title (poor SEO).")
  | none => (false, "Generic or missing page title (poor SEO).")

/-- Consumes exactly `n` decimal digits, returning the remainder of the
list (`\d{n}` at the start of the input). -/
def takeDigits : Nat → List Char → Option (List Char)
  | 0, cs => some cs
  | _ + 1, [] => none
  | n + 1, c :: cs => if c.isDigit then takeDigits n cs else none

/-- `\(\d{3}\)\s*\d{3}-\d{4}` anchored at the start of the input. -/
def matchParenPhone (cs : List Char) : Bool :=
  match cs with
  | '(' :: rest =>
    match takeDigits 3 rest with
    | some (')' :: rest2) =>
      match takeDigits 3 (rest2.dropWhile isPySpace) with
      | some ('-' :: rest3) => (takeDigits 4 rest3).isSome
      | _ => false
    | _ => false
  | _ => false

/-- `\d{3}-\d{3}-\d{4}` anchored at the start of the input. -/
def matchDashPhone (cs : List Char) : Bool :=
  match takeDigits 3 cs with
  | some ('-' :: rest) =>
    match takeDigits 3 rest with
    | some ('-' :: rest2) => (takeDigits 4 rest2).isSome
    | _ => false
  | _ => false

/-- `\d{3}\.\d{3}\.\d{4}` anchored at the start of the input. -/
def matchDotPhone (cs : List Char) : Bool :=
  match takeDigits 3 cs with
  | some ('.' :: rest) =>
    match takeDigits 3 rest with
    | some ('.' :: rest2) => (takeDigits 4 rest2).isSome
    | _ => false
  | _ => false

/-- `\d{10}` anchored at the start of the input. -/
def matchTenDigits (cs : List Char) : Bool :=
  (takeDigits 10 cs).isSome

/-- `re.search`: the anchored matcher `p` succeeds at some position. -/
def searchFrom (p : List Char → Bool) : List Char → Bool
  | [] => p []
  | c :: cs => p (c :: cs) || searchFrom p cs

def phone_patterns : List (List Char → Bool) :=
  [matchParenPhone, matchDashPhone, matchDotPhone, matchTenDigits]

def check_phone_number (d : Doc) : Bool × String :=
  if phone_patterns.any (fun p => searchFrom p d.text.data) then (true, "")
  else (false, "No visible phone number found.")

def contact_indicators : List String :=
  ["contact", "phone", "call", "email", "@", "address"]

def check_contact_info (d : Doc) : Bool × String :=
  if contact_indicators.any (fun i => strContains (pyLower d.text) i) then (true, "")
  else (false, "Limited contact information visible.")

def professional_indicators : List String :=
  ["services", "about", "experience", "professional", "licensed",
   "insured", "certified", "quality", "expert"]

def diy_builders : List String :=
  ["weebly", "wix", "squarespace", "godaddy"]

def check_professional_content (d : Doc) : Bool × String :=
  let text := (pyLower d.text)
  let count := (professional_indicators.filter (fun i => strContains text i)).length
  if diy_builders.any (fun b => strContains text b) then
    (false, "Built with DIY website builder (unprofessional appearance).")
  else if count ≥ 4 then (true, "")
  else (false, "Content lacks sufficient professional business language.")

def cta_phrases : List String :=
  ["call now", "contact us", "get quote", "free estimate",
   "schedule", "book", "hire", "order"]

def check_call_to_action (d : Doc) : Bool × String :=
  if cta_phrases.any (fun p => strContains (pyLower d.text) p) then (true, "")
  else (false, "No clear call-to-action found.")

def social_indicators : List String :=
  ["review", "testimonial", "customer", "client", "star",
   "rating", "feedback", "recommend"]

def check_social_proof (d : Doc) : Bool × String :=
  if social_indicators.any (fun i => strContains (pyLower d.text) i) then (true, "")
  else (false, "No social proof or testimonials visible.")

def check_images_and_media (d : Doc) : Bool × String :=
  if d.imgSrcs.length ≥ 2 then (true, "")
  else (false, "Few or no images found (poor visual appeal).")

/-! ## Scorer and analysis (`analyze_website_comprehensive`, lines 112-208)

The function's network effect (calling `fetch_html`) is factored out:
the embedded function takes the fetched document and the measured load
time as inputs, exactly the data the source destructures from
`fetch_html(url)`.  The unused `openai_api_key` parameter is dropped. -/

/-- The ordered check list of lines 121-132. -/
def run_checks (url : String) (d : Doc) (load_time : ℚ) :
    List (String × (Bool × String)) :=
  [("SSL Certificate", check_ssl url),
   ("Mobile Responsiveness", check_mobile_meta d),
   ("Page Speed", check_page_speed load_time),
   ("Professional Title", check_company_name_or_title d),
   ("Phone Number", check_phone_number d),
   ("Contact Information", check_contact_info d),
   ("Professional Content", check_professional_content d),
   ("Call to Action", check_call_to_action d),
   ("Social Proof", check_social_proof d),
   ("Images/Media", check_images_and_media d)]

/-- `passed_checks` (line 135): the number of checks that passed. -/
def passed_checks (url : String) (d : Doc) (load_time : ℚ) : Nat :=
  (run_checks url d load_time).countP (fun c => c.2.1)

/-- Lines 142-143: +2 when a DIY-builder brand occurs in the lower-cased
page text. -/
def penalty_builder (d : Doc) : Nat :=
  if diy_builders.any (fun b => strContains (pyLower d.text) b) then 2 else 0

/-- Lines 146-147: +3 for "under construction" or "coming soon". -/
def penalty_construction (d : Doc) : Nat :=
  if strContains (pyLower d.text) "under construction"
      || strContains (pyLower d.text) "coming soon" then 3 else 0

/-- Lines 150-151: +2 when the stripped page text is under 500 characters. -/
def penalty_short_text (d : Doc) : Nat :=
  if (pyStrip d.text).length < 500 then 2 else 0

def business_words : List String :=
  ["service", "about", "contact", "business", "company"]

/-- Lines 154-155: +2 when none of the key business words occur. -/
def penalty_business_words (d : Doc) : Nat :=
  if !(business_words.any (fun w => strContains (pyLower d.text) w)) then 2 else 0

/-- Lines 158-165: the number of `img` elements with a truthy `src`
attribute (the `try`/`except` around `img.get('src')` never fires, as
`get` on an attribute name does not raise). -/
def images_with_src (d : Doc) : Nat :=
  (d.imgSrcs.filter (fun s => s ≠ "")).length

/-- Lines 166-167: +1 when fewer than 2 images carry a non-empty `src`. -/
def penalty_img_src (d : Doc) : Nat :=
  if images_with_src d < 2 then 1 else 0

/-- `quality_penalties` accumulated over lines 138-167. -/
def quality_penalties (d : Doc) : Nat :=
  penalty_builder d + penalty_construction d + penalty_short_text d
    + penalty_business_words d + penalty_img_src d

/-- Python's builtin two-argument `max` on integers. -/
def pymax (a b : Int) : Int :=
  if b ≤ a then a else b

/-- Python's builtin two-argument `min` on integers. -/
def pymin (a b : Int) : Int :=
  if a ≤ b then a else b

/-- Lines 169-172: `final_score = max(1, base_score - quality_penalties)`;
`score = min(10, final_score)`.  The subtraction is over ℤ, as Python's. -/
def analysis_score (url : String) (d : Doc) (load_time : ℚ) : Int :=
  pymin 10 (pymax 1 ((passed_checks url d load_time : Int) - (quality_penalties d : Int)))

def success_report : String :=
  "Excellent! This website passes all basic checks for local business optimization."

/-- Lines 177-183: the bulleted failure report, or the fixed success
sentence when no check failed with a non-empty reason.  The bullet
character is the `U+2022` the source file's bytes encode. -/
def analysis_report (url : String) (d : Doc) (load_time : ℚ) : String :=
  let checks := run_checks url d load_time
  let failed_checks := checks.filter (fun c => !c.2.1 && c.2.2 ≠ "")
  if failed_checks ≠ [] then
    "Issues found:\n"
      ++ String.intercalate "\n"
        ((checks.filter (fun c => !c.2.1 && c.2.2 ≠ "")).map (fun c => "• " ++ c.2.2))
  else success_report

/-- Lines 185-192: business-name extraction.  `business_name` starts as
`"Business"` and is reassigned only when a title with string content
exists (Python `if soup.title and soup.title.string`). -/
def extract_business_name (d : Doc) : String :=
  match d.title with
  | some t =>
    if t ≠ "" then
      let title_text := pyStrip t
      if title_text ≠ "" ∧ !strContains (pyLower title_text) "home"
          ∧ !strContains (pyLower title_text) "index" then
        title_text
      else "Local Business"
    else "Business"
  | none => "Business"

/-- The result dictionary of lines 197-205. -/
structure AnalysisResult where
  url : String
  score : Int
  report : String
  business_name : String
  page_text : String
  load_time : ℚ
  checks : List (String × (Bool × String))
deriving Repr, DecidableEq

def analyze_website_comprehensive (url : String) (d : Doc) (load_time : ℚ) :
    AnalysisResult :=
  { url := url
    score := analysis_score url d load_time
    report := analysis_report url d load_time
    business_name := extract_business_name d
    page_text := ⟨d.text.data.take 2000⟩
    load_time := load_time
    checks := run_checks url d load_time }

/-! ## Text-generation adapter (lines 211-351)

The external chat-completion service is an oracle parameter: given the
user prompt and the `max_tokens` cap, it either returns the first
completion's content or an error message, the latter standing for any
exception the client raises (transport error, bad key, `None`
content...).  Each generator wraps its single call in Python
`try`/`except` and converts every failure into the task's fallback
string, which is exactly the `match` below. -/

def ChatService : Type :=
  String → Nat → Except String String

/-- The f-string prompt of lines 216-229. -/
def lead_qualification_prompt (ar : AnalysisResult) : String :=
  "\n        Based on this website analysis, determine if this is a good lead for website redesign services:\n        \n        Website: "
    ++ ar.url
    ++ "\n        Business Name: " ++ ar.business_name
    ++ "\n        Issues Found: " ++ ar.report
    ++ "\n        \n        Consider:\n        - Local businesses with poor web presence are prime candidates\n        - Missing contact info, poor mobile experience, slow loading, unprofessional appearance are key indicators\n        - DIY website builders often indicate a business ready for professional help\n        \n        Respond with \"Yes\" or \"No\" and provide a 2-3 sentence rationale focusing on how these issues are likely costing them customers and business opportunities.\n        "

/-- `generate_lead_qualification` (lines 211-242), `max_tokens=150`. -/
def generate_lead_qualification (svc : ChatService) (ar : AnalysisResult) : String :=
  match svc (lead_qualification_prompt ar) 150 with
  | .ok content => pyStrip content
  | .error e => "Unable to generate lead qualification: " ++ e

/-- The business-type heuristics of lines 258-269: the first keyword
family that matches the lower-cased page text wins. -/
def business_type_of (page_text : String) : String :=
  let text := pyLower page_text
  if ["plumb", "pipe", "drain", "water"].any (fun w => strContains text w) then
    "Plumbing Company"
  else if ["electric", "wire", "power"].any (fun w => strContains text w) then
    "Electrical Company"
  else if ["roof", "gutter", "shingle"].any (fun w => strContains text w) then
    "Roofing Company"
  else if ["hvac", "air", "heat", "cool"].any (fun w => strContains text w) then
    "HVAC Company"
  else if ["lawn", "landscape", "garden"].any (fun w => strContains text w) then
    "Landscaping Company"
  else "Local Business"

/-- The domain extraction of line 252. -/
def domain_of (url : String) : String :=
  (((url.replace "https://" "").replace "http://" "").splitOn "/").headD ""

/-- `generate_replit_prompt` (lines 244-279).  Reading the template file
is the oracle argument: `.ok` carries the file's text, `.error` the
exception message of a failed `open` (missing file). -/
def generate_replit_prompt (read_template : Except String String)
    (ar : AnalysisResult) : String :=
  match read_template with
  | .ok template =>
    (((template.replace "{domain}" (domain_of ar.url)).replace
        "{business_type}" (business_type_of ar.page_text)).replace
        "{location}" "Local Area")
  | .error e => "Unable to generate Replit prompt: " ++ e

/-- The f-string prompt of lines 286-306. -/
def outreach_email_prompt (ar : AnalysisResult) : String :=
  "\n        Write a professional outreach email for a web design service targeting this local business:\n        \n        Website: "
    ++ ar.url
    ++ "\n        Business: " ++ ar.business_name
    ++ "\n        Issues Found: " ++ ar.report
    ++ "\n        \n        Email should:\n        - Be friendly but professional\n        - Mention 2-3 specific issues found on their site and how they impact customer acquisition\n        - Explain how these issues are likely costing them business\n        - Offer to help improve their online presence\n        - Include a soft call-to-action\n        - Be 150-200 words\n        - Have a subject line\n        \n        Format as:\n        Subject: [subject line]\n        \n        [email body]\n        "

/-- `generate_outreach_email` (lines 281-319), `max_tokens=300`. -/
def generate_outreach_email (svc : ChatService) (ar : AnalysisResult) : String :=
  match svc (outreach_email_prompt ar) 300 with
  | .ok content => pyStrip content
  | .error e => "Unable to generate outreach email: " ++ e

/-- The f-string prompt of lines 326-338 (`report` truncated to 200
characters). -/
def outreach_dm_prompt (ar : AnalysisResult) : String :=
  "\n        Write a brief, friendly social media DM for this local business:\n        \n        Business: "
    ++ ar.business_name
    ++ "\n        Website Issues: " ++ (⟨ar.report.data.take 200⟩ : String)
    ++ "\n        \n        DM should:\n        - Be casual and friendly\n        - Mention you noticed their website and how it might be affecting their business\n        - Offer help in a non-pushy way focusing on customer acquisition\n        - Be under 100 words\n        - Feel like a genuine message from one business owner to another\n        "

/-- `generate_outreach_dm` (lines 321-351), `max_tokens=150`. -/
def generate_outreach_dm (svc : ChatService) (ar : AnalysisResult) : String :=
  match svc (outreach_dm_prompt ar) 150 with
  | .ok content => pyStrip content
  | .error e => "Unable to generate outreach DM: " ++ e

/-! ## Helper lemmas -/

theorem startsList_refl (l : List Char) : startsList l l = true := by
  induction l with
  | nil => rfl
  | cons c cs ih => simp [startsList, ih]

/-- A list contains itself as a final segment, hence `subList` finds it. -/
theorem subList_append_self (pre needle : List Char) :
    subList needle (pre ++ needle) = true := by
  induction pre with
  | nil =>
    cases needle with
    | nil => rfl
    | cons c cs => simp [subList, startsList_refl]
  | cons p ps ih => simp [subList, ih]

/-- Appending on the right preserves Python `in`: `needle` occurs in
`hay ++ needle`. -/
theorem strContains_append_self (hay needle : String) :
    strContains (hay ++ needle) needle = true := by
  have h := congrArg (fun s : String => subList needle.data s.data)
    (rfl : hay ++ needle = hay ++ needle)
  simpa [strContains, String.data_append] using subList_append_self hay.data needle.data

theorem startsList_of_append (a b s : List Char)
    (h : startsList (a ++ b) s = true) : startsList a s = true := by
  induction a generalizing s with
  | nil => rfl
  | cons c cs ih =>
    cases s with
    | nil => simp [startsList] at h
    | cons t ts =>
      simp only [List.cons_append, startsList, Bool.and_eq_true] at h ⊢
      exact ⟨h.1, ih ts h.2⟩

/-- A string starting with `"https://"` starts with `"http"`. -/
theorem startsWith_http_of_https (s : String)
    (h : strStartsWith s "https://" = true) : strStartsWith s "http" = true :=
  startsList_of_append "http".data "s://".data s.data h

theorem data_append_ne_nil (s t : String) (h : s.data ≠ []) :
    (s ++ t).data ≠ [] := by
  rw [String.data_append]
  intro he
  exact h (List.append_eq_nil.mp he).1

theorem string_ne_of_data_ne (s t : String) (h : s.data ≠ t.data) : s ≠ t :=
  fun he => h (congrArg String.data he)

/-- Python's `max` agrees with the mathematical binary maximum. -/
theorem pymax_eq_max (a b : Int) : pymax a b = max a b := by
  unfold pymax
  split <;> omega

/-- Python's `min` agrees with the mathematical binary minimum. -/
theorem pymin_eq_min (a b : Int) : pymin a b = min a b := by
  unfold pymin
  split <;> omega

/-! ## C1 and C2: the scoring formula and its range -/

/-- The accumulated quality penalties, written out as the claim words
them (a sum of five independently evaluated flags), over ℤ. -/
theorem quality_penalties_spelled (d : Doc) :
    (quality_penalties d : Int) =
      (if diy_builders.any (fun b => strContains (pyLower d.text) b) then 2 else 0)
        + (if strContains (pyLower d.text) "under construction"
            || strContains (pyLower d.text) "coming soon" then 3 else 0)
        + (if (pyStrip d.text).length < 500 then 2 else 0)
        + (if !(business_words.any (fun w => strContains (pyLower d.text) w)) then 2 else 0)
        + (if images_with_src d < 2 then 1 else 0) := by
  simp only [quality_penalties, penalty_builder, penalty_construction,
    penalty_short_text, penalty_business_words, penalty_img_src]
  push_cast [apply_ite (fun n : ℕ => (n : ℤ))]
  ring

/-- C1: for every fetched document, load time ≥ 0 and URL, the score
returned by `analyze_website_comprehensive` equals
`min(10, max(1, base_score - quality_penalties))`, where `base_score`
counts the passing predicates and `quality_penalties` sums the flags
+2 (DIY builder), +3 (under construction / coming soon), +2 (stripped
text under 500 characters), +2 (no key business word), +1 (fewer than
two images with non-empty `src`). -/
theorem C1_score_formula (url : String) (d : Doc) (load_time : ℚ)
    (_hlt : 0 ≤ load_time) :
    (analyze_website_comprehensive url d load_time).score =
      min 10 (max 1
        (((run_checks url d load_time).countP (fun c => c.2.1) : Int)
          - ((if diy_builders.any (fun b => strContains (pyLower d.text) b) then 2 else 0)
            + (if strContains (pyLower d.text) "under construction"
                || strContains (pyLower d.text) "coming soon" then 3 else 0)
            + (if (pyStrip d.text).length < 500 then 2 else 0)
            + (if !(business_words.any (fun w => strContains (pyLower d.text) w)) then 2 else 0)
            + (if images_with_src d < 2 then 1 else 0)))) := by
  show pymin 10 (pymax 1 ((passed_checks url d load_time : Int)
      - (quality_penalties d : Int))) = _
  rw [pymin_eq_min, pymax_eq_max, quality_penalties_spelled, passed_checks]

/-- C1 witness: on a concrete healthy page with short text the formula
evaluates to `min 10 (max 1 (10 - 2)) = 8`. -/
def sample_url : String := "https://joesplumbing.com"

def sample_doc : Doc :=
  { title := some "Joes Plumbing and Drain Services"
    viewport := true
    text := "Joes Plumbing offers professional drain services about our licensed insured team call now (555) 123-4567 contact us reviews from customers"
    imgSrcs := ["logo.png", "team.jpg"] }

theorem C1_score_formula_witness :
    (analyze_website_comprehensive sample_url sample_doc 1).score = 8 :=
  (C1_score_formula sample_url sample_doc 1 (by norm_num)).trans
    (by rw [← pymax_eq_max, ← pymin_eq_min]; decide)

/-- C2: the score is an integer (its type is ℤ) in the closed interval
[1,10] for every input document and load time ≥ 0, however many
predicates fail and however large the penalties grow. -/
theorem C2_score_range (url : String) (d : Doc) (load_time : ℚ)
    (_hlt : 0 ≤ load_time) :
    1 ≤ (analyze_website_comprehensive url d load_time).score
      ∧ (analyze_website_comprehensive url d load_time).score ≤ 10 := by
  have h : (analyze_website_comprehensive url d load_time).score
      = pymin 10 (pymax 1 ((passed_checks url d load_time : Int)
          - (quality_penalties d : Int))) := rfl
  rw [h]
  unfold pymin pymax
  split_ifs <;> omega

theorem C2_score_range_witness :
    1 ≤ (analyze_website_comprehensive sample_url sample_doc 1).score
      ∧ (analyze_website_comprehensive sample_url sample_doc 1).score ≤ 10 :=
  C2_score_range sample_url sample_doc 1 (by norm_num)

/-! ## C3: report contents -/

/-- Every check produces an empty reason exactly when it passed. -/
theorem reason_empty_iff_passed (url : String) (d : Doc) (load_time : ℚ) :
    ∀ c ∈ run_checks url d load_time, (c.2.2 = "" ↔ c.2.1 = true) := by
  intro c hc
  have hmsg : ("Page load time " ++ fmtTenths load_time
      ++ "s (slower than 4.0s).") ≠ "" := by
    apply string_ne_of_data_ne
    intro h
    exact data_append_ne_nil _ _ (data_append_ne_nil "Page load time "
      (fmtTenths load_time) (by decide)) h
  simp only [run_checks, List.mem_cons, List.not_mem_nil, or_false] at hc
  rcases hc with h | h | h | h | h | h | h | h | h | h <;> subst h
  · unfold check_ssl; split <;> simp
  · unfold check_mobile_meta; split <;> simp
  · unfold check_page_speed; split <;> simp_all
  · unfold check_company_name_or_title
    rcases d.title with _ | t <;> simp only []
    · simp
    · split <;> simp
  · unfold check_phone_number; split <;> simp
  · unfold check_contact_info; split <;> simp
  · simp only [check_professional_content]
    split
    · simp
    · split <;> simp
  · unfold check_call_to_action; split <;> simp
  · unfold check_social_proof; split <;> simp
  · unfold check_images_and_media; split <;> simp

/-- The bulleted report never equals the success sentence (their first
characters differ). -/
theorem issues_prefix_ne_success (s : String) :
    ("Issues found:\n" ++ s) ≠ success_report := by
  intro h
  have h3 : ("Issues found:\n" ++ s).data.head? = success_report.data.head? := by
    rw [h]
  rw [String.data_append] at h3
  have h2 : (some 'I' : Option Char) = some 'E' := h3
  simp at h2

/-- The failure filter of line 178 retains nothing exactly when every
check passed. -/
theorem failed_checks_nil_iff (url : String) (d : Doc) (load_time : ℚ) :
    (run_checks url d load_time).filter (fun c => !c.2.1 && c.2.2 ≠ "") = []
      ↔ ∀ c ∈ run_checks url d load_time, c.2.1 = true := by
  rw [List.filter_eq_nil_iff]
  constructor
  · intro h c hc
    by_contra hp
    simp only [Bool.not_eq_true] at hp
    have h3 := reason_empty_iff_passed url d load_time c hc
    rw [hp] at h3
    have hr : c.2.2 ≠ "" := fun he => absurd (h3.mp he) (by simp)
    exact h c hc (by simp [hp, hr])
  · intro h c hc
    simp [h c hc]

/-- C3: the report equals the fixed congratulatory sentence iff every
predicate reason is empty, equivalently iff every predicate passed; and
otherwise it is the bulleted list of exactly the failed predicates'
reasons, each once, in evaluation order. -/
theorem C3_report_contents (url : String) (d : Doc) (load_time : ℚ) :
    ((analyze_website_comprehensive url d load_time).report = success_report
        ↔ ∀ c ∈ (analyze_website_comprehensive url d load_time).checks, c.2.2 = "")
      ∧ ((∀ c ∈ (analyze_website_comprehensive url d load_time).checks, c.2.2 = "")
        ↔ ∀ c ∈ (analyze_website_comprehensive url d load_time).checks, c.2.1 = true)
      ∧ (¬(∀ c ∈ (analyze_website_comprehensive url d load_time).checks, c.2.1 = true) →
        (analyze_website_comprehensive url d load_time).report =
          "Issues found:\n" ++ String.intercalate "\n"
            (((analyze_website_comprehensive url d load_time).checks.filter
              (fun c => !c.2.1)).map (fun c => "• " ++ c.2.2))) := by
  have hko : (analyze_website_comprehensive url d load_time).checks
      = run_checks url d load_time := rfl
  have hrep : (analyze_website_comprehensive url d load_time).report
      = analysis_report url d load_time := rfl
  have hBiff : (∀ c ∈ run_checks url d load_time, c.2.2 = "")
      ↔ ∀ c ∈ run_checks url d load_time, c.2.1 = true := by
    constructor
    · intro h c hc
      exact (reason_empty_iff_passed url d load_time c hc).mp (h c hc)
    · intro h c hc
      exact (reason_empty_iff_passed url d load_time c hc).mpr (h c hc)
  rw [hko, hrep]
  by_cases hall : ∀ c ∈ run_checks url d load_time, c.2.1 = true
  · have hnil := (failed_checks_nil_iff url d load_time).mpr hall
    have hrep2 : analysis_report url d load_time = success_report := by
      simp only [analysis_report, hnil]
      simp
    exact ⟨Iff.intro (fun _ => hBiff.mpr hall) (fun _ => hrep2), hBiff,
      fun hcon => absurd hall hcon⟩
  · have hne : (run_checks url d load_time).filter
        (fun c => !c.2.1 && c.2.2 ≠ "") ≠ [] :=
      fun h => hall ((failed_checks_nil_iff url d load_time).mp h)
    have hrep2 : analysis_report url d load_time
        = "Issues found:\n" ++ String.intercalate "\n"
            (((run_checks url d load_time).filter
              (fun c => !c.2.1 && c.2.2 ≠ "")).map (fun c => "• " ++ c.2.2)) := by
      simp only [analysis_report]
      rw [if_pos hne]
    have hfilter : (run_checks url d load_time).filter
          (fun c => !c.2.1 && c.2.2 ≠ "")
        = (run_checks url d load_time).filter (fun c => !c.2.1) := by
      apply List.filter_congr
      intro c hc
      have h3 := reason_empty_iff_passed url d load_time c hc
      by_cases hp : c.2.1 = true
      · rw [hp]; simp
      · simp only [Bool.not_eq_true] at hp
        rw [hp] at h3 ⊢
        have hr : c.2.2 ≠ "" := fun he => absurd (h3.mp he) (by simp)
        simp [hr]
    have hnsucc : analysis_report url d load_time ≠ success_report := by
      rw [hrep2]
      exact issues_prefix_ne_success _
    exact ⟨Iff.intro (fun h => (hnsucc h).elim)
        (fun hre => (hall (hBiff.mp hre)).elim),
      hBiff, fun _ => by rw [hrep2, hfilter]⟩

/-- A page on which several checks fail, for C3's witness. -/
def bare_doc : Doc :=
  { title := none, viewport := false, text := "", imgSrcs := [] }

theorem C3_report_contents_witness :
    ¬(∀ c ∈ (analyze_website_comprehensive "x" bare_doc 1).checks, c.2.1 = true)
      ∧ (analyze_website_comprehensive "x" bare_doc 1).report
        = "Issues found:\n" ++ String.intercalate "\n"
            (((analyze_website_comprehensive "x" bare_doc 1).checks.filter
              (fun c => !c.2.1)).map (fun c => "• " ++ c.2.2)) :=
  ⟨by decide, (C3_report_contents "x" bare_doc 1).2.2 (by decide)⟩

/-! ## C4: DIY-builder auto-fail -/

/-- C4: the professional-content predicate fails with the DIY-builder
reason whenever a builder brand occurs in the lower-cased text, no
matter how many professional keywords appear; with no builder present
it passes iff at least 4 of the nine keywords occur; and a builder
occurrence makes the scorer's +2 DIY penalty term fire. -/
theorem C4_builder_autofail (d : Doc) :
    ((diy_builders.any (fun b => strContains (pyLower d.text) b)) = true →
      check_professional_content d
        = (false, "Built with DIY website builder (unprofessional appearance)."))
    ∧ ((diy_builders.any (fun b => strContains (pyLower d.text) b)) = false →
      ((check_professional_content d).1 = true
        ↔ 4 ≤ (professional_indicators.filter
            (fun i => strContains (pyLower d.text) i)).length))
    ∧ ((diy_builders.any (fun b => strContains (pyLower d.text) b)) = true →
      penalty_builder d = 2) := by
  refine ⟨?_, ?_, ?_⟩
  · intro h
    simp only [check_professional_content]
    rw [if_pos h]
  · intro h
    simp only [check_professional_content]
    rw [if_neg (by simp [h])]
    split
    next hc => simp [hc]
    next hc => simp [hc]
  · intro h
    simp only [penalty_builder]
    rw [if_pos h]

/-- A page advertising a DIY builder together with many professional
keywords. -/
def wix_doc : Doc :=
  { title := none, viewport := false
    text := "Built on Wix services about experience professional licensed insured"
    imgSrcs := [] }

theorem C4_builder_autofail_witness :
    check_professional_content wix_doc
        = (false, "Built with DIY website builder (unprofessional appearance).")
      ∧ penalty_builder wix_doc = 2
      ∧ (check_professional_content sample_doc).1 = true :=
  ⟨(C4_builder_autofail wix_doc).1 (by decide),
   (C4_builder_autofail wix_doc).2.2 (by decide),
   ((C4_builder_autofail sample_doc).2.1 (by decide)).mpr (by decide)⟩

/-! ## C5: scheme normalization -/

/-- C5: the claim says every URL without a scheme has `"https://"`
prepended before the GET.  The source's guard is
`url.lower().startswith("http")`, so the schemeless URL
`"httpbin.org"` is passed to the GET unchanged — contradicting
`fetch_html`'s own docstring ("Ensures `https://` is prepended if
missing").  The claim's concrete example does behave as stated. -/
theorem C5_scheme_normalization :
    spec_has_scheme "httpbin.org" = false
      ∧ fetch_html_url "httpbin.org" = "httpbin.org"
      ∧ spec_has_scheme "example.com" = false
      ∧ fetch_html_url "example.com" = "https://example.com" :=
  ⟨by decide, by decide, by decide, by decide⟩

/-! ## C6: SSL predicate sees the original URL -/

/-- C6: when the input URL does not start (case-insensitively) with
`"http"`, the fetch goes to `"https://" ++ url`, yet the SSL predicate
is evaluated on the original string and fails, and the result's `url`
field is the original input unchanged. -/
theorem C6_ssl_original_url (url : String) (d : Doc) (load_time : ℚ)
    (h : strStartsWith (pyLower url) "http" = false) :
    fetch_html_url url = "https://" ++ url
      ∧ (check_ssl url).1 = false
      ∧ (analyze_website_comprehensive url d load_time).url = url := by
  refine ⟨?_, ?_, rfl⟩
  · simp [fetch_html_url, h]
  · simp only [check_ssl]
    rw [if_neg (fun hs =>
      absurd (startsWith_http_of_https (pyLower url) hs) (by simp [h]))]

theorem C6_ssl_original_url_witness :
    fetch_html_url "example.com" = "https://" ++ "example.com"
      ∧ (check_ssl "example.com").1 = false
      ∧ (analyze_website_comprehensive "example.com" bare_doc 1).url
        = "example.com" :=
  C6_ssl_original_url "example.com" bare_doc 1 (by decide)

/-! ## C7: business-type classification -/

/-- The ordered keyword-family table as the specification words it, to
compare with the if-chain of `generate_replit_prompt`. -/
def spec_business_families : List (List String × String) :=
  [(["plumb", "pipe", "drain", "water"], "Plumbing Company"),
   (["electric", "wire", "power"], "Electrical Company"),
   (["roof", "gutter", "shingle"], "Roofing Company"),
   (["hvac", "air", "heat", "cool"], "HVAC Company"),
   (["lawn", "landscape", "garden"], "Landscaping Company")]

/-- The specification's classification rule: scan the ordered family
table, return the first matching family's label, default to
`"Local Business"`. -/
def spec_first_match (t : String) : List (List String × String) → String
  | [] => "Local Business"
  | (kws, label) :: rest =>
    if kws.any (fun w => strContains t w) then label else spec_first_match t rest

/-- C7: classification is the first matching family of the ordered
table, with default `"Local Business"`; in particular a text matching
both the plumbing and the electrical families classifies as
`"Plumbing Company"`. -/
theorem C7_business_type_first_match (page_text : String) :
    business_type_of page_text
        = spec_first_match (pyLower page_text) spec_business_families
      ∧ ((["plumb", "pipe", "drain", "water"].any
            (fun w => strContains (pyLower page_text) w)) = true →
        (["electric", "wire", "power"].any
            (fun w => strContains (pyLower page_text) w)) = true →
        business_type_of page_text = "Plumbing Company") := by
  constructor
  · rfl
  · intro h1 _h2
    simp [business_type_of, h1]

theorem C7_business_type_first_match_witness :
    business_type_of "we plumb pipes and install electric wires"
      = "Plumbing Company" :=
  (C7_business_type_first_match "we plumb pipes and install electric wires").2
    (by decide) (by decide)

/-! ## C8: generation tasks fail independently -/

/-- C8: with the outreach-email service call failing with message `e`,
the email task returns the fallback string embedding `e` (no exception
escapes — the generator is a total function into `String`), while the
qualification and DM tasks, whose service calls succeed, still return
their trimmed completions. -/
theorem C8_generation_isolation (ar : AnalysisResult) (e qtxt dtxt : String)
    (svcQ svcD : ChatService)
    (hq : svcQ (lead_qualification_prompt ar) 150 = Except.ok qtxt)
    (hd : svcD (outreach_dm_prompt ar) 150 = Except.ok dtxt) :
    generate_outreach_email (fun _ _ => Except.error e) ar
        = "Unable to generate outreach email: " ++ e
      ∧ strContains (generate_outreach_email (fun _ _ => Except.error e) ar) e
        = true
      ∧ generate_lead_qualification svcQ ar = pyStrip qtxt
      ∧ generate_outreach_dm svcD ar = pyStrip dtxt := by
  refine ⟨rfl, ?_, ?_, ?_⟩
  · exact strContains_append_self "Unable to generate outreach email: " e
  · simp [generate_lead_qualification, hq]
  · simp [generate_outreach_dm, hd]

theorem C8_generation_isolation_witness :
    generate_outreach_email (fun _ _ => Except.error "connection reset")
        (analyze_website_comprehensive "x" bare_doc 1)
        = "Unable to generate outreach email: " ++ "connection reset"
      ∧ strContains
          (generate_outreach_email (fun _ _ => Except.error "connection reset")
            (analyze_website_comprehensive "x" bare_doc 1)) "connection reset"
        = true
      ∧ generate_lead_qualification (fun _ _ => Except.ok " Yes, a good lead. ")
          (analyze_website_comprehensive "x" bare_doc 1)
        = pyStrip " Yes, a good lead. "
      ∧ generate_outreach_dm (fun _ _ => Except.ok " Hi there! ")
          (analyze_website_comprehensive "x" bare_doc 1)
        = pyStrip " Hi there! " :=
  C8_generation_isolation (analyze_website_comprehensive "x" bare_doc 1)
    "connection reset" " Yes, a good lead. " " Hi there! "
    (fun _ _ => Except.ok " Yes, a good lead. ")
    (fun _ _ => Except.ok " Hi there! ") rfl rfl

/-! ## C9: business-name fallbacks -/

/-- A page with no title element at all. -/
def no_title_doc : Doc :=
  { title := none, viewport := true, text := "", imgSrcs := [] }

/-- A page with the generic title `"Home"`. -/
def home_title_doc : Doc :=
  { title := some "Home", viewport := true, text := "", imgSrcs := [] }

/-- C9 counterexample: the claim asserts one single fixed fallback label
shared by the no-title case and the generic-title case; the code
returns `"Business"` for a missing title but `"Local Business"` for the
generic title `"Home"` — two different fallback strings. -/
theorem C9_counterexample_two_fallbacks :
    extract_business_name no_title_doc = "Business"
      ∧ extract_business_name home_title_doc = "Local Business"
      ∧ ("Business" : String) ≠ "Local Business" :=
  ⟨rfl, by decide, by decide⟩

/-- C9 amended: the business name is the trimmed title text when a title
with text is present and the trimmed text is nonempty and contains
neither `"home"` nor `"index"` (case-insensitive); with a present title
whose trimmed text is empty or matches those substrings the fallback is
`"Local Business"`; with no title text at all the fallback is
`"Business"`. -/
theorem C9_business_name_fallbacks (d : Doc) :
    (∀ t, d.title = some t → t ≠ "" →
      extract_business_name d =
        (if pyStrip t ≠ "" ∧ !strContains (pyLower (pyStrip t)) "home"
            ∧ !strContains (pyLower (pyStrip t)) "index"
          then pyStrip t else "Local Business"))
    ∧ ((d.title = none ∨ d.title = some "") →
      extract_business_name d = "Business") := by
  constructor
  · intro t ht hne
    simp only [extract_business_name, ht]
    rw [if_pos hne]
  · intro h
    rcases h with h | h <;> simp only [extract_business_name, h]
    rw [if_neg (by simp)]

theorem C9_business_name_fallbacks_witness :
    extract_business_name home_title_doc = "Local Business"
      ∧ extract_business_name no_title_doc = "Business" :=
  ⟨((C9_business_name_fallbacks home_title_doc).1 "Home" rfl
      (by decide)).trans (by decide),
   (C9_business_name_fallbacks no_title_doc).2 (Or.inl rfl)⟩

/-! ## C10: the low-score scenario -/

/-- Stripping never lengthens a string. -/
theorem pyStrip_length_le (s : String) : (pyStrip s).length ≤ s.length := by
  have h1 := (List.IsSuffix.sublist
    (List.dropWhile_suffix (l := s.data) isPySpace)).length_le
  have h2 := (List.IsSuffix.sublist
    (List.dropWhile_suffix
      (l := (s.data.dropWhile isPySpace).reverse) isPySpace)).length_le
  show (stripChars s.data).length ≤ s.data.length
  simp only [stripChars, List.length_reverse] at *
  omega

/-- Counting a predicate and its complement covers the whole list. -/
theorem countP_self_add_not {α : Type} (p : α → Bool) (l : List α) :
    l.countP p + l.countP (fun a => !p a) = l.length := by
  induction l with
  | nil => rfl
  | cons a t ih =>
    simp only [List.countP_cons, List.length_cons]
    by_cases h : p a = true <;> simp [h] <;> omega

/-- A page meeting every condition of the C10 scenario — title
`"Home"`, no viewport, no phone pattern, text of exactly 300
characters — on which the scenario's asserted conclusions fail:
the 300 characters contain business words and professional keywords,
and two images carry a `src`. -/
def c10_doc : Doc :=
  { title := some "Home", viewport := false
    text := "services about experience professional licensed insured certified quality expert contact call now review customer"
      ++ ⟨List.replicate 187 'x'⟩
    imgSrcs := ["a.png", "b.png"] }

/-- C10 counterexample: `c10_doc` satisfies all the scenario's stated
conditions (fetched over https, load time 5.2s), yet the quality
penalties total 2 — not ≥ 4 — and the score is 4, not 1.  (Exactly 4
predicates do fail, so that part of the claim holds.) -/
theorem C10_counterexample_penalties_and_score :
    c10_doc.title = some "Home"
      ∧ c10_doc.viewport = false
      ∧ (check_phone_number c10_doc).1 = false
      ∧ c10_doc.text.length = 300
      ∧ quality_penalties c10_doc = 2
      ∧ (analyze_website_comprehensive "https://ex.com" c10_doc
          (mkRat 26 5)).score = 4 :=
  ⟨rfl, rfl, by decide, by decide, by decide, by decide⟩

/-- C10 amended: under the scenario's conditions (title `"Home"`, no
viewport tag, load time 5.2s, no phone pattern, text of 300 characters)
*and additionally* a text containing none of the key business words and
fewer than two images with a non-empty `src`, at least 4 of the ten
predicates fail, the quality penalties total at least 4, and the score
is exactly 1. -/
theorem C10_low_score_scenario (url : String) (d : Doc)
    (htitle : d.title = some "Home")
    (hview : d.viewport = false)
    (hphone : (check_phone_number d).1 = false)
    (hlen : d.text.length = 300)
    (hbiz : business_words.any (fun w => strContains (pyLower d.text) w) = false)
    (himg : images_with_src d < 2) :
    4 ≤ (run_checks url d (mkRat 26 5)).countP (fun c => !c.2.1)
      ∧ 4 ≤ quality_penalties d
      ∧ (analyze_website_comprehensive url d (mkRat 26 5)).score = 1 := by
  have hmob : (check_mobile_meta d).1 = false := by
    simp [check_mobile_meta, hview]
  have hspeed : (check_page_speed (mkRat 26 5)).1 = false := by decide
  have htitlef : (check_company_name_or_title d).1 = false := by
    rw [check_company_name_or_title.eq_def, htitle]
    decide
  have hfail : 4 ≤ (run_checks url d (mkRat 26 5)).countP (fun c => !c.2.1) := by
    simp only [run_checks, List.countP_cons, List.countP_nil, hmob, hspeed,
      htitlef, hphone]
    split_ifs <;> simp_all
  have hshort : penalty_short_text d = 2 := by
    unfold penalty_short_text
    rw [if_pos]
    have := pyStrip_length_le d.text
    omega
  have hbw : penalty_business_words d = 2 := by
    unfold penalty_business_words
    rw [if_pos (by simp [hbiz])]
  have himgp : penalty_img_src d = 1 := by
    unfold penalty_img_src
    rw [if_pos himg]
  have hpen : 5 ≤ quality_penalties d := by
    unfold quality_penalties
    rw [hshort, hbw, himgp]
    omega
  refine ⟨hfail, by omega, ?_⟩
  have hsum := countP_self_add_not (fun c => c.2.1) (run_checks url d (mkRat 26 5))
  have hlen10 : (run_checks url d (mkRat 26 5)).length = 10 := by
    simp [run_checks]
  have hpass : passed_checks url d (mkRat 26 5) ≤ 6 := by
    unfold passed_checks
    omega
  show pymin 10 (pymax 1 ((passed_checks url d (mkRat 26 5) : Int)
      - (quality_penalties d : Int))) = 1
  unfold pymin pymax
  split_ifs <;> omega

/-- A 300-character page of filler satisfying the amended scenario. -/
def c10_bare_doc : Doc :=
  { title := some "Home", viewport := false
    text := ⟨List.replicate 300 'x'⟩, imgSrcs := [] }

theorem C10_low_score_scenario_witness :
    4 ≤ (run_checks "https://ex.com" c10_bare_doc (mkRat 26 5)).countP
        (fun c => !c.2.1)
      ∧ 4 ≤ quality_penalties c10_bare_doc
      ∧ (analyze_website_comprehensive "https://ex.com" c10_bare_doc
          (mkRat 26 5)).score = 1 :=
  C10_low_score_scenario "https://ex.com" c10_bare_doc rfl rfl
    (by decide) (by decide) (by decide) (by decide)

end WebsiteAnalyzer
